import Mathlib

/-!
Verification development for the Wisteria CTR Studio repository.

The Python sources are shallowly embedded as Lean definitions:

* api.py               : computeCtr, validateRequest, predictCtrPrelude
* SiliconSampling/sampler.py : weightedChoice, sampleIdentity, sampleIdentities
* openai_client.py     : openaiPredictChunk / openaiPredictChunkAsync
* CTRPrediction/deepseek_client.py : deepseekPredictChunk / deepseekPredictChunkAsync
* llm_click_model.py and base_client.py are not present in the sources;
  the definitions that stand in for them are modelled from the
  specification and carry a doc comment saying so.

External effects (vendor SDK construction, network calls, the OS
environment, the Python Mersenne-Twister RNG) are modelled as explicit
parameters: a VendorEnv value records the outcome of each external
operation, and client functions additionally return the list of
externally visible events (client construction, issued API calls) so
that properties such as "no transport call is attempted" are statable.
-/

/-! Section: api.py -/

/-- Embedding of AVAILABLE_PROVIDERS from api.py. -/
def AVAILABLE_PROVIDERS : List String := ["openai", "deepseek"]

/-- Embedding of AVAILABLE_PLATFORMS from api.py. -/
def AVAILABLE_PLATFORMS : List String := ["facebook", "tiktok", "amazon"]

/-- Embedding of a raised fastapi.HTTPException: status code and detail. -/
structure HttpErr where
  statusCode : Nat
  detail : String
deriving DecidableEq, Repr

/-- Embedding of api.py validate_request: checks ad_platform against
AVAILABLE_PLATFORMS, then provider against AVAILABLE_PROVIDERS; returns
the raised HTTPException if any, none when validation passes. -/
def validateRequest (adPlatform provider : String) : Option HttpErr :=
  if adPlatform ∈ AVAILABLE_PLATFORMS then
    if provider ∈ AVAILABLE_PROVIDERS then
      none
    else
      some ⟨400, "Invalid provider. Must be one of: [openai, deepseek]"⟩
  else
    some ⟨400, "Invalid ad_platform. Must be one of: [facebook, tiktok, amazon]"⟩

/-- Outcome of the phase of api.py predict_ctr that runs before identity
sampling: either the request is rejected with an HTTPException, or control
reaches the sample_identities call. -/
inductive PreSampling where
  | rejected (e : HttpErr)
  | proceedToSampling
deriving DecidableEq, Repr

/-- Embedding of the pre-sampling phase of api.py predict_ctr: first
validate_request, then the os.path.exists check on the identity bank path,
which raises a 400 HTTPException when the file is absent.  Only after both
does control reach sample_identities. -/
def predictCtrPrelude (adPlatform provider : String) (bankFileExists : Bool) :
    PreSampling :=
  match validateRequest adPlatform provider with
  | some e => .rejected e
  | none =>
      if bankFileExists then .proceedToSampling
      else .rejected ⟨400, "Identity bank file not found"⟩

/-- Embedding of api.py compute_ctr: 0.0 on the empty list, else the count
of truthy entries (Python truthiness of an int: nonzero) divided by the
length.  Reals are modelled by rationals. -/
def computeCtr (clicks : List Int) : ℚ :=
  if clicks = [] then 0
  else ((clicks.filter (fun x => x != 0)).length : ℚ) / (clicks.length : ℚ)

/-! Section: sampler.py _weighted_choice -/

/-- Loop of sampler.py _weighted_choice: running from index i with
accumulator upto, add each weight and return the first index whose
accumulated sum reaches r; none when the loop finishes. -/
def weightedChoiceLoop (r : ℚ) : List ℚ → Nat → ℚ → Option Nat
  | [], _, _ => none
  | w :: ws, i, upto =>
      let upto2 := upto + w
      if r ≤ upto2 then some i else weightedChoiceLoop r ws (i + 1) upto2

/-- Embedding of sampler.py _weighted_choice.  The single rng.random()
draw is passed in as u (a unit-interval value); r = u * total as in the
source.  Raising ValueError is modelled by Except.error with the message
from the source. -/
def weightedChoice (weights : List ℚ) (u : ℚ) : Except String Nat :=
  let total := weights.sum
  if total ≤ 0 then .error "Sum of weights must be positive"
  else
    match weightedChoiceLoop (u * total) weights 0 0 with
    | some i => .ok i
    | none => .ok (weights.length - 1)

/-! Section: identity profiles and shared client vocabulary -/

/-- Embedding of an identity record as produced by sampler.py
sample_identity and consumed by the clients (Python dict with these
keys; illness present only sometimes, modelled by Option). -/
structure Identity where
  gender : String
  age : Int
  region : String
  occupation : String
  annualSalary : ℚ
  liabilityStatus : ℚ
  isMarried : Bool
  healthStatus : Bool
  illness : Option String
deriving DecidableEq, Repr

/-- Chat message: a role/content pair, embedding the dicts built by
_create_messages. -/
structure Msg where
  role : String
  content : String
deriving DecidableEq, Repr

/-- Vendor endpoint reached by an issued API call. -/
inductive Endpoint where
  | chatCompletions
  | responsesApi
deriving DecidableEq, Repr

/-- Payload handed to a vendor call: a messages list for
chat.completions.create, a bare input string for responses.create. -/
inductive Payload where
  | chatMsgs (msgs : List Msg)
  | respInput (input : String)
deriving DecidableEq, Repr

/-- Record of one issued vendor API call: endpoint, model, payload and
the optional keyword arguments actually passed in the source (none
models an omitted keyword argument). -/
structure ApiCall where
  endpoint : Endpoint
  model : String
  payload : Payload
  temperature : Option ℚ
  stream : Option Bool
deriving DecidableEq, Repr

/-- Externally visible events of one predict_chunk run: vendor client
construction attempts and issued API calls, in order. -/
inductive Event where
  | clientConstruct
  | apiCall (c : ApiCall)
deriving DecidableEq, Repr

/-- Result of one predict_chunk run: the returned decision list, the
fallback reason string passed to _fallback_to_mock when a fallback was
taken (none on the parse path), and the event trace. -/
structure PredictOut where
  decisions : List Int
  reason : Option String
  events : List Event
deriving DecidableEq, Repr

/-- Kinds of Python exception relevant to _get_client: the source wraps
every construction failure in an ImportError, so otherError is kept only
to mirror the except-Exception arm of predict_chunk. -/
inductive PyError where
  | importError
  | otherError
deriving DecidableEq, Repr

/-- Outcome of vendor client construction, an external effect. -/
inductive CtorOutcome where
  | ok
  | fails
deriving DecidableEq, Repr

/-- Environment of external outcomes for one predict_chunk run: whether
vendor client construction succeeds, and the content returned by the
chat.completions call and by the responses call (none models the call
raising an exception of any kind: timeout, non-2xx, malformed envelope). -/
structure VendorEnv where
  ctor : CtorOutcome
  chat : Option String
  responsesApi : Option String
deriving DecidableEq, Repr

/-- Embedding of _get_client / _get_async_client of both clients: any
exception raised inside (import failure or constructor failure) is
re-raised as an ImportError, so construction either succeeds or yields
PyError.importError. -/
def getClientOutcome (env : VendorEnv) : Except PyError Unit :=
  match env.ctor with
  | .ok => .ok ()
  | .fails => .error .importError

/-- Boolean suffix test on strings, used to state that a fallback reason
carries a given tag (the source builds reasons as provider-name prefixes
followed by the tag text). -/
def hasTag (s tag : String) : Bool :=
  tag.data.isSuffixOf s.data

/-! Section: base_client.py (absent from the sources; modelled from the spec) -/

/-- Modelled from the spec: base_client.py is absent from the sources.
Credential resolution per section 4.2 step 1 and the client sources:
the explicit api_key override if truthy, else the environment variable
value if truthy (Python or-chaining, empty string falsy). -/
def resolveKey (apiKey envVal : Option String) : Option String :=
  match apiKey with
  | some k => if k = "" then envVal.bind (fun e => if e = "" then none else some e) else some k
  | none => envVal.bind (fun e => if e = "" then none else some e)

/-- Modelled from the spec: base_client.py has_api_key, true exactly when
a non-empty credential is resolvable. -/
def hasApiKey (apiKey envVal : Option String) : Bool :=
  (resolveKey apiKey envVal).isSome

/-- Modelled from the spec: base_client.py mock oracle, section 4.4: a
pure deterministic function of ad text and profile content into the
binary set, hash-derived; never raises. -/
def mockDecide (adText : String) (p : Identity) : Int :=
  ((adText.length + p.age.natAbs + p.occupation.length + p.region.length) % 2 : Nat)

/-- Modelled from the spec: base_client.py _build_prompt, section 4.1: a
deterministic textual rendering of ad text, platform and the batch,
stating the batch size; no side effects. -/
def buildPrompt (adText : String) (chunk : List Identity) (adPlatform : String) : String :=
  "Decide clicks for ad: " ++ adText ++ " on " ++ adPlatform ++
    " for " ++ toString chunk.length ++ " profiles as a strict JSON array"

/-- Modelled from the spec: the array-locating step of the response
parser, section 4.3 and section 8: find a JSON array of integers inside
the raw text, tolerating surrounding prose, code fences, and a missing
closing bracket (the truncated form of section 8 still yields its
leading entries); none when no parseable array is found. -/
def extractIntArray (raw : String) : Option (List Int) :=
  match raw.splitOn "[" with
  | _ :: afterBracket :: _ =>
      let inner := ((afterBracket.splitOn "]").headD afterBracket).trim
      if inner = "" then some []
      else (inner.splitOn ",").mapM (fun s => s.trim.toInt?)
  | _ => none

/-- Modelled from the spec: base_client.py _parse_and_validate_response,
section 4.3: coerce each array element to the binary set, truncate when
longer than the batch, right-pad with mock-oracle decisions for the
missing profiles when shorter; when no array is found the whole batch
falls back to the mock oracle tagged response malformed.  Returns the
decisions and the fallback reason if any. -/
def parseAndValidate (content : String) (chunk : List Identity) (adText : String)
    (tag : String) : List Int × Option String :=
  match extractIntArray content with
  | none => (chunk.map (mockDecide adText), some (tag ++ " response malformed"))
  | some xs =>
      let coerced := xs.map (fun x => if x == 0 then (0 : Int) else 1)
      let taken := coerced.take chunk.length
      (taken ++ (chunk.drop taken.length).map (mockDecide adText), none)

/-! Section: openai_client.py -/

/-- Embedding of OpenAIClient._create_messages: the fixed system
instruction followed by the rendered prompt as the user message. -/
def openaiCreateMessages (prompt : String) : List Msg :=
  [⟨"system", "You are a precise decision engine that outputs strict JSON."⟩,
   ⟨"user", prompt⟩]

/-- Embedding of OpenAIClient.predict_chunk (synchronous).  The client
state is the model name and the credential sources (explicit api_key
override and the OPENAI_API_KEY environment value); env carries the
outcomes of the external operations.  Note the source performs no
has_api_key pre-check: it goes straight to _get_client, issues
chat.completions.create with temperature 0 and no stream argument, on
failure retries via responses.create with the same model and prompt and
no temperature or stream argument, and only then falls back to mock. -/
def openaiPredictChunk (model : String) (apiKey envVal : Option String)
    (env : VendorEnv) (adText : String) (chunk : List Identity)
    (adPlatform : String) : PredictOut :=
  match getClientOutcome env with
  | .error .importError =>
      ⟨chunk.map (mockDecide adText), some "OpenAI import failed", [.clientConstruct]⟩
  | .error .otherError =>
      ⟨chunk.map (mockDecide adText), some "OpenAI client init failed", [.clientConstruct]⟩
  | .ok _ =>
      let prompt := buildPrompt adText chunk adPlatform
      let chatCall : ApiCall :=
        ⟨.chatCompletions, model, .chatMsgs (openaiCreateMessages prompt), some 0, none⟩
      match env.chat with
      | some content =>
          let pr := parseAndValidate content chunk adText "OpenAI"
          ⟨pr.1, pr.2, [.clientConstruct, .apiCall chatCall]⟩
      | none =>
          let respCall : ApiCall :=
            ⟨.responsesApi, model, .respInput prompt, none, none⟩
          match env.responsesApi with
          | some content =>
              let pr := parseAndValidate content chunk adText "OpenAI"
              ⟨pr.1, pr.2, [.clientConstruct, .apiCall chatCall, .apiCall respCall]⟩
          | none =>
              ⟨chunk.map (mockDecide adText), some "OpenAI API call failed",
               [.clientConstruct, .apiCall chatCall, .apiCall respCall]⟩

/-- Embedding of OpenAIClient.predict_chunk_async: like the synchronous
path but with the Async reason tags and no responses-endpoint retry. -/
def openaiPredictChunkAsync (model : String) (apiKey envVal : Option String)
    (env : VendorEnv) (adText : String) (chunk : List Identity)
    (adPlatform : String) : PredictOut :=
  match getClientOutcome env with
  | .error .importError =>
      ⟨chunk.map (mockDecide adText), some "AsyncOpenAI import failed", [.clientConstruct]⟩
  | .error .otherError =>
      ⟨chunk.map (mockDecide adText), some "AsyncOpenAI client init failed", [.clientConstruct]⟩
  | .ok _ =>
      let prompt := buildPrompt adText chunk adPlatform
      let chatCall : ApiCall :=
        ⟨.chatCompletions, model, .chatMsgs (openaiCreateMessages prompt), some 0, none⟩
      match env.chat with
      | some content =>
          let pr := parseAndValidate content chunk adText "AsyncOpenAI"
          ⟨pr.1, pr.2, [.clientConstruct, .apiCall chatCall]⟩
      | none =>
          ⟨chunk.map (mockDecide adText), some "AsyncOpenAI API call failed",
           [.clientConstruct, .apiCall chatCall]⟩

/-! Section: CTRPrediction/deepseek_client.py -/

/-- Embedding of DeepSeekClient._create_messages: identical two-message
shape to the OpenAI client. -/
def deepseekCreateMessages (prompt : String) : List Msg :=
  [⟨"system", "You are a precise decision engine that outputs strict JSON."⟩,
   ⟨"user", prompt⟩]

/-- Embedding of DeepSeekClient.predict_chunk (synchronous).  The source
checks has_api_key first and returns mock decisions tagged DeepSeek API
key missing before any client construction; otherwise it constructs the
client, issues chat.completions.create with the model defaulted through
Python or-chaining, temperature 0 and stream False, and falls back to
mock on call failure. -/
def deepseekPredictChunk (model : String) (apiKey envVal : Option String)
    (env : VendorEnv) (adText : String) (chunk : List Identity)
    (adPlatform : String) : PredictOut :=
  if hasApiKey apiKey envVal = false then
    ⟨chunk.map (mockDecide adText), some "DeepSeek API key missing", []⟩
  else
    match getClientOutcome env with
    | .error .importError =>
        ⟨chunk.map (mockDecide adText), some "OpenAI import failed", [.clientConstruct]⟩
    | .error .otherError =>
        ⟨chunk.map (mockDecide adText), some "DeepSeek client init failed", [.clientConstruct]⟩
    | .ok _ =>
        let prompt := buildPrompt adText chunk adPlatform
        let mdl := if model = "" then "deepseek-chat" else model
        let chatCall : ApiCall :=
          ⟨.chatCompletions, mdl, .chatMsgs (deepseekCreateMessages prompt), some 0, some false⟩
        match env.chat with
        | some content =>
            let pr := parseAndValidate content chunk adText "DeepSeek"
            ⟨pr.1, pr.2, [.clientConstruct, .apiCall chatCall]⟩
        | none =>
            ⟨chunk.map (mockDecide adText), some "DeepSeek API call failed",
             [.clientConstruct, .apiCall chatCall]⟩

/-- Embedding of DeepSeekClient.predict_chunk_async: same key pre-check
and call shape as the synchronous path, with the Async reason tags. -/
def deepseekPredictChunkAsync (model : String) (apiKey envVal : Option String)
    (env : VendorEnv) (adText : String) (chunk : List Identity)
    (adPlatform : String) : PredictOut :=
  if hasApiKey apiKey envVal = false then
    ⟨chunk.map (mockDecide adText), some "DeepSeek API key missing", []⟩
  else
    match getClientOutcome env with
    | .error .importError =>
        ⟨chunk.map (mockDecide adText), some "AsyncOpenAI import failed", [.clientConstruct]⟩
    | .error .otherError =>
        ⟨chunk.map (mockDecide adText), some "AsyncDeepSeek client init failed", [.clientConstruct]⟩
    | .ok _ =>
        let prompt := buildPrompt adText chunk adPlatform
        let mdl := if model = "" then "deepseek-chat" else model
        let chatCall : ApiCall :=
          ⟨.chatCompletions, mdl, .chatMsgs (deepseekCreateMessages prompt), some 0, some false⟩
        match env.chat with
        | some content =>
            let pr := parseAndValidate content chunk adText "AsyncDeepSeek"
            ⟨pr.1, pr.2, [.clientConstruct, .apiCall chatCall]⟩
        | none =>
            ⟨chunk.map (mockDecide adText), some "AsyncDeepSeek API call failed",
             [.clientConstruct, .apiCall chatCall]⟩

/-! Section: llm_click_model.py (absent from the sources; modelled from the spec) -/

/-- Provider identifier, section 6: the configuration-driven registry maps
provider names to client constructors. -/
inductive Provider where
  | openai
  | deepseek
deriving DecidableEq, Repr

/-- Execution mode of the orchestrator, section 4.5. -/
inductive ExecMode where
  | sequential
  | concurrent
deriving DecidableEq, Repr

/-- Modelled from the spec: the LLMClickPredictor construction parameters
of section 6 (provider, model, batch_size, use_mock, credential override);
llm_click_model.py is absent from the sources. -/
structure PredictorCfg where
  provider : Provider
  model : String
  batchSize : Nat
  useMock : Bool
  apiKey : Option String
deriving Repr

/-- Partition of a list into contiguous chunks of the given size, the
last chunk possibly shorter; empty for size zero.  Embeds the batch
split of section 4.5. -/
def chunkList (size : Nat) (l : List α) : List (List α) :=
  match l with
  | [] => []
  | x :: xs =>
      if h : size = 0 then []
      else
        have : (xs.drop (size - 1)).length < xs.length + 1 := by
          rw [List.length_drop]
          omega
        (x :: xs).take size :: chunkList size (xs.drop (size - 1))
termination_by l.length

/-- Dispatch of one batch to the configured provider client in the given
execution mode (sequential uses the synchronous predict_chunk,
concurrent the async variant), per the registry of section 9. -/
def providerPredictChunk (cfg : PredictorCfg) (mode : ExecMode)
    (envVal : Option String) (env : VendorEnv) (adText : String)
    (chunk : List Identity) (adPlatform : String) : PredictOut :=
  match cfg.provider, mode with
  | .openai, .sequential =>
      openaiPredictChunk cfg.model cfg.apiKey envVal env adText chunk adPlatform
  | .openai, .concurrent =>
      openaiPredictChunkAsync cfg.model cfg.apiKey envVal env adText chunk adPlatform
  | .deepseek, .sequential =>
      deepseekPredictChunk cfg.model cfg.apiKey envVal env adText chunk adPlatform
  | .deepseek, .concurrent =>
      deepseekPredictChunkAsync cfg.model cfg.apiKey envVal env adText chunk adPlatform

/-- Decision vector produced for batch i: the i-th chunk of the
population driven through the provider client, with envs i the external
outcomes of the run for that batch. -/
def batchDecisions (cfg : PredictorCfg) (mode : ExecMode) (envVal : Option String)
    (envs : Nat → VendorEnv) (adText : String) (adPlatform : String)
    (batches : List (List Identity)) (i : Nat) : List Int :=
  (providerPredictChunk cfg mode envVal (envs i) adText (batches.getD i []) adPlatform).decisions

/-- Modelled from the spec: llm_click_model.py LLMClickPredictor
predict_clicks is absent from the sources; section 4.5.  The population
is partitioned into ordered batches of the configured size; in mock mode
every batch routes directly to the Mock Oracle.  Sequential mode drives
the batches in order through the synchronous client path and
concatenates.  Concurrent mode dispatches every batch through the async
client path; completionOrder lists the batch indices in the order their
provider calls happen to complete, and the orchestrator reassembles the
results in original batch order, not completion order, before
concatenating. -/
def predictClicks (cfg : PredictorCfg) (mode : ExecMode) (envVal : Option String)
    (envs : Nat → VendorEnv) (completionOrder : List Nat) (adText : String)
    (population : List Identity) (adPlatform : String) : List Int :=
  let batches := chunkList cfg.batchSize population
  if cfg.useMock then
    (batches.map (fun b => b.map (mockDecide adText))).flatten
  else
    match mode with
    | .sequential =>
        ((List.range batches.length).map
          (batchDecisions cfg mode envVal envs adText adPlatform batches)).flatten
    | .concurrent =>
        let completed := completionOrder.map
          (fun j => (j, batchDecisions cfg mode envVal envs adText adPlatform batches j))
        ((List.range batches.length).map
          (fun i => ((completed.find? (fun p => p.1 == i)).map Prod.snd).getD [])).flatten

/-! Section: SiliconSampling/sampler.py identity sampling.

The Python random.Random class is an external library; it is modelled as a
deterministic state machine.  A state is a base value plus a call
counter; each draw is a concrete deterministic function of the state and
advances the counter, which is the property of the Mersenne Twister that
the sampler relies on.  Constructing random.Random(seed) with an integer
seed determines the state from the seed alone; constructing it with
seed None seeds from ambient OS entropy, modelled by an explicit
ambientEntropy argument. -/

/-- Model of a Python random.Random generator state. -/
structure RngState where
  base : Nat
  counter : Nat
deriving DecidableEq, Repr

/-- Model of rng.random(): a deterministic unit-interval rational drawn
from the state, advancing the counter. -/
def nextUnit (st : RngState) : ℚ × RngState :=
  ((((st.base + 7 * st.counter) % 10 : Nat) : ℚ) / 10, ⟨st.base, st.counter + 1⟩)

/-- Model of rng.gauss(mu, sigma): a deterministic draw centred on mu
with spread sigma, advancing the state. -/
def nextGauss (mu sigma : ℚ) (st : RngState) : ℚ × RngState :=
  let p := nextUnit st
  (mu + sigma * (2 * p.1 - 1), p.2)

/-- Model of random.Random(seed): an integer seed alone determines the
initial state; seed None seeds from ambient OS entropy. -/
def rngOfSeed (seed : Option Int) (ambientEntropy : Nat) : RngState :=
  match seed with
  | some s => ⟨s.natAbs, 0⟩
  | none => ⟨ambientEntropy, 0⟩

/-- Model of rng.choice(seq): one draw selects an index below the length
(callers in the source guard against empty sequences; dflt is returned
only in that unreachable case). -/
def pyChoice (l : List α) (dflt : α) (st : RngState) : α × RngState :=
  let p := nextUnit st
  (l.getD (⌊p.1 * (l.length : ℚ)⌋).toNat dflt, p.2)

/-- Model of int(round(x)) on a rational; Python rounds half to even,
the model rounds half up, which is immaterial to the properties proved
here (determinism and threading). -/
def pythonRound (q : ℚ) : Int := ⌊q + 1 / 2⌋

/-- Model of round(x, 2). -/
def pythonRound2 (q : ℚ) : ℚ := ((pythonRound (q * 100) : ℚ)) / 100

/-- Categorical configuration: values with optional probs, embedding the
dict consumed by sampler.py _sample_categorical. -/
structure CatCfg where
  values : List String
  probs : Option (List ℚ)
deriving Repr

/-- Truncated-normal configuration with the dict defaults of
_sample_int_normal already resolved. -/
structure NormCfg where
  mean : ℚ
  std : ℚ
  vmin : ℚ
  vmax : ℚ
deriving Repr

/-- One salary/liability bucket of _sample_float_bucketed. -/
structure Bucket where
  bmin : ℚ
  bmax : ℚ
  weight : ℚ
deriving DecidableEq, Repr

/-- Bucket list configuration of _sample_float_bucketed. -/
structure BucketCfg where
  buckets : List Bucket
deriving Repr

/-- One composite region value of _sample_region. -/
structure RegionItem where
  city : String
  state : String
deriving DecidableEq, Repr

/-- Region configuration of _sample_region. -/
structure RegionCfg where
  values : List RegionItem
deriving Repr

/-- Boolean configuration of _sample_bool with p_true resolved. -/
structure BoolCfg where
  pTrue : ℚ
deriving Repr

/-- Health configuration of _sample_health. -/
structure HealthCfg where
  pTrue : ℚ
  values : List String
deriving Repr

/-- Identity bank: the eight keyed configurations sample_identity reads. -/
structure Bank where
  gender : CatCfg
  age : NormCfg
  region : RegionCfg
  occupation : CatCfg
  annualSalary : BucketCfg
  liabilityStatus : BucketCfg
  isMarried : BoolCfg
  healthStatus : HealthCfg
deriving Repr

/-- Embedding of sampler.py _sample_categorical: raise on empty values;
rng.choice when probs is absent; raise on length mismatch; else one
rng.random() draw through _weighted_choice. -/
def sampleCategorical (cfg : CatCfg) (st : RngState) :
    Except String (String × RngState) :=
  match cfg.values with
  | [] => .error "categorical values empty"
  | v :: vs =>
      match cfg.probs with
      | none => .ok (pyChoice (v :: vs) "" st)
      | some probs =>
          if (v :: vs).length = probs.length then
            let p := nextUnit st
            match weightedChoice probs p.1 with
            | .error e => .error e
            | .ok idx => .ok ((v :: vs).getD idx "", p.2)
          else .error "values and probs length mismatch"

/-- Loop of sampler.py _sample_int_normal: up to the given fuel many
rejection attempts returning the first in-range draw rounded; when the
fuel runs out, one further draw clipped into range and rounded. -/
def sampleIntNormalLoop (cfg : NormCfg) : Nat → RngState → Int × RngState
  | 0, st =>
      let p := nextGauss cfg.mean cfg.std st
      (pythonRound (max cfg.vmin (min cfg.vmax p.1)), p.2)
  | n + 1, st =>
      let p := nextGauss cfg.mean cfg.std st
      if cfg.vmin ≤ p.1 ∧ p.1 ≤ cfg.vmax then (pythonRound p.1, p.2)
      else sampleIntNormalLoop cfg n p.2

/-- Embedding of sampler.py _sample_int_normal: eight rejection rounds
then clipping. -/
def sampleIntNormal (cfg : NormCfg) (st : RngState) : Int × RngState :=
  sampleIntNormalLoop cfg 8 st

/-- Embedding of sampler.py _sample_float_bucketed: raise on empty
buckets, one draw through _weighted_choice over the bucket weights, then
one uniform draw within the chosen bucket range, bounds swapped when
reversed. -/
def sampleFloatBucketed (cfg : BucketCfg) (st : RngState) :
    Except String (ℚ × RngState) :=
  match cfg.buckets with
  | [] => .error "float_bucketed requires buckets"
  | b0 :: bs =>
      let weights := (b0 :: bs).map (fun b => b.weight)
      let p := nextUnit st
      match weightedChoice weights p.1 with
      | .error e => .error e
      | .ok idx =>
          let b := (b0 :: bs).getD idx ⟨0, 0, 1⟩
          let lo := if b.bmax < b.bmin then b.bmax else b.bmin
          let hi := if b.bmax < b.bmin then b.bmin else b.bmax
          let q := nextUnit p.2
          .ok (q.1 * (hi - lo) + lo, q.2)

/-- Embedding of sampler.py _sample_region: raise on empty values, one
rng.choice, City comma State rendering when the state part is nonempty. -/
def sampleRegion (cfg : RegionCfg) (st : RngState) :
    Except String (String × RngState) :=
  match cfg.values with
  | [] => .error "region.values empty"
  | v :: vs =>
      let p := pyChoice (v :: vs) ⟨"Unknown", ""⟩ st
      if p.1.state = "" then .ok (p.1.city, p.2)
      else .ok (p.1.city ++ ", " ++ p.1.state, p.2)

/-- Embedding of sampler.py _sample_bool: one draw compared against
p_true. -/
def sampleBool (pTrue : ℚ) (st : RngState) : Bool × RngState :=
  let p := nextUnit st
  (decide (p.1 < pTrue), p.2)

/-- Embedding of sampler.py _sample_health: the boolean flag, then when
set an illness chosen from the values with the literal None entries
filtered out, when any remain. -/
def sampleHealth (cfg : HealthCfg) (st : RngState) :
    (Bool × Option String) × RngState :=
  let p := sampleBool cfg.pTrue st
  if p.1 then
    match cfg.values.filter (fun v => v.toLower != "none") with
    | [] => ((true, none), p.2)
    | v :: vs =>
        let q := pyChoice (v :: vs) "" p.2
        ((true, some q.1), q.2)
  else ((false, none), p.2)

/-- Embedding of sampler.py sample_identity: the eight fields sampled in
source order, threading the generator state; salary and liability
rounded to two decimals; the illness key present exactly when the health
flag is set and an illness was drawn. -/
def sampleIdentity (bank : Bank) (st : RngState) :
    Except String (Identity × RngState) := do
  let (gender, st1) ← sampleCategorical bank.gender st
  let (age, st2) := sampleIntNormal bank.age st1
  let (region, st3) ← sampleRegion bank.region st2
  let (occupation, st4) ← sampleCategorical bank.occupation st3
  let (salary, st5) ← sampleFloatBucketed bank.annualSalary st4
  let (liability, st6) ← sampleFloatBucketed bank.liabilityStatus st5
  let (married, st7) := sampleBool bank.isMarried.pTrue st6
  let ((health, ill), st8) := sampleHealth bank.healthStatus st7
  .ok (⟨gender, age, region, occupation, pythonRound2 salary,
        pythonRound2 liability, married, health, ill⟩, st8)

/-- Loop of sampler.py sample_identities: n records drawn in order from
the threaded generator. -/
def sampleIdentitiesLoop (bank : Bank) : Nat → RngState → Except String (List Identity)
  | 0, _ => .ok []
  | n + 1, st => do
      let (ident, st2) ← sampleIdentity bank st
      let rest ← sampleIdentitiesLoop bank n st2
      .ok (ident :: rest)

/-- Embedding of sampler.py sample_identities: a fresh random.Random(seed)
generator, then n records in order.  ambientEntropy models the OS entropy
consulted only when seed is None. -/
def sampleIdentities (n : Nat) (bank : Bank) (seed : Option Int)
    (ambientEntropy : Nat) : Except String (List Identity) :=
  sampleIdentitiesLoop bank n (rngOfSeed seed ambientEntropy)

/-- Fixed identity profile used to instantiate witnesses. -/
def idA : Identity := ⟨"m", 40, "X", "w", 0, 0, false, false, none⟩

/-- Second fixed identity profile used to instantiate witnesses. -/
def idB : Identity := ⟨"f", 30, "Y", "v", 0, 0, true, false, none⟩

/-! Section: helper lemmas and claim theorems -/

/-- Each mock-oracle decision is binary. -/
theorem mockDecide_binary (a : String) (p : Identity) :
    mockDecide a p = 0 ∨ mockDecide a p = 1 := by
  unfold mockDecide
  omega

/-- The repaired decision list of the parser has exactly the batch length. -/
theorem parseAndValidate_length (content : String) (chunk : List Identity)
    (adText tag : String) :
    (parseAndValidate content chunk adText tag).1.length = chunk.length := by
  unfold parseAndValidate
  cases extractIntArray content with
  | none => simp
  | some xs => simp [List.length_take, List.length_drop]

/-- Every entry of the repaired decision list is binary. -/
theorem parseAndValidate_binary (content : String) (chunk : List Identity)
    (adText tag : String) :
    ∀ x ∈ (parseAndValidate content chunk adText tag).1, x = 0 ∨ x = 1 := by
  unfold parseAndValidate
  cases extractIntArray content with
  | none =>
      intro x hx
      obtain ⟨p, _, rfl⟩ := List.mem_map.mp hx
      exact mockDecide_binary _ _
  | some xs =>
      intro x hx
      rw [List.mem_append] at hx
      rcases hx with h1 | h2
      · have hx2 : x ∈ xs.map (fun y => if y == 0 then (0 : Int) else 1) :=
          List.take_subset _ _ h1
        obtain ⟨y, _, rfl⟩ := List.mem_map.mp hx2
        split <;> simp
      · obtain ⟨p, _, rfl⟩ := List.mem_map.mp h2
        exact mockDecide_binary _ _

/-- The OpenAI synchronous client always returns one decision per profile. -/
theorem openaiPredictChunk_length (model : String) (apiKey envVal : Option String)
    (env : VendorEnv) (adText : String) (chunk : List Identity) (adPlatform : String) :
    (openaiPredictChunk model apiKey envVal env adText chunk adPlatform).decisions.length
      = chunk.length := by
  obtain ⟨ctor, chat, resp⟩ := env
  unfold openaiPredictChunk getClientOutcome
  cases ctor <;> cases chat <;> cases resp <;> simp [parseAndValidate_length]

/-- The OpenAI asynchronous client always returns one decision per profile. -/
theorem openaiPredictChunkAsync_length (model : String) (apiKey envVal : Option String)
    (env : VendorEnv) (adText : String) (chunk : List Identity) (adPlatform : String) :
    (openaiPredictChunkAsync model apiKey envVal env adText chunk adPlatform).decisions.length
      = chunk.length := by
  obtain ⟨ctor, chat, resp⟩ := env
  unfold openaiPredictChunkAsync getClientOutcome
  cases ctor <;> cases chat <;> cases resp <;> simp [parseAndValidate_length]

/-- The DeepSeek synchronous client always returns one decision per profile. -/
theorem deepseekPredictChunk_length (model : String) (apiKey envVal : Option String)
    (env : VendorEnv) (adText : String) (chunk : List Identity) (adPlatform : String) :
    (deepseekPredictChunk model apiKey envVal env adText chunk adPlatform).decisions.length
      = chunk.length := by
  obtain ⟨ctor, chat, resp⟩ := env
  unfold deepseekPredictChunk getClientOutcome
  cases hasApiKey apiKey envVal <;> cases ctor <;> cases chat <;> cases resp <;>
    simp [parseAndValidate_length]

/-- The DeepSeek asynchronous client always returns one decision per profile. -/
theorem deepseekPredictChunkAsync_length (model : String) (apiKey envVal : Option String)
    (env : VendorEnv) (adText : String) (chunk : List Identity) (adPlatform : String) :
    (deepseekPredictChunkAsync model apiKey envVal env adText chunk adPlatform).decisions.length
      = chunk.length := by
  obtain ⟨ctor, chat, resp⟩ := env
  unfold deepseekPredictChunkAsync getClientOutcome
  cases hasApiKey apiKey envVal <;> cases ctor <;> cases chat <;> cases resp <;>
    simp [parseAndValidate_length]

/-- The OpenAI synchronous client returns only binary decisions. -/
theorem openaiPredictChunk_binary (model : String) (apiKey envVal : Option String)
    (env : VendorEnv) (adText : String) (chunk : List Identity) (adPlatform : String) :
    ∀ x ∈ (openaiPredictChunk model apiKey envVal env adText chunk adPlatform).decisions,
      x = 0 ∨ x = 1 := by
  obtain ⟨ctor, chat, resp⟩ := env
  unfold openaiPredictChunk getClientOutcome
  cases ctor <;> cases chat <;> cases resp <;> intro x hx <;>
    simp only [] at hx <;>
    first
      | exact parseAndValidate_binary _ _ _ _ x hx
      | (obtain ⟨p, _, rfl⟩ := List.mem_map.mp hx; exact mockDecide_binary _ _)

/-- The OpenAI asynchronous client returns only binary decisions. -/
theorem openaiPredictChunkAsync_binary (model : String) (apiKey envVal : Option String)
    (env : VendorEnv) (adText : String) (chunk : List Identity) (adPlatform : String) :
    ∀ x ∈ (openaiPredictChunkAsync model apiKey envVal env adText chunk adPlatform).decisions,
      x = 0 ∨ x = 1 := by
  obtain ⟨ctor, chat, resp⟩ := env
  unfold openaiPredictChunkAsync getClientOutcome
  cases ctor <;> cases chat <;> cases resp <;> intro x hx <;>
    simp only [] at hx <;>
    first
      | exact parseAndValidate_binary _ _ _ _ x hx
      | (obtain ⟨p, _, rfl⟩ := List.mem_map.mp hx; exact mockDecide_binary _ _)

/-- The DeepSeek synchronous client returns only binary decisions. -/
theorem deepseekPredictChunk_binary (model : String) (apiKey envVal : Option String)
    (env : VendorEnv) (adText : String) (chunk : List Identity) (adPlatform : String) :
    ∀ x ∈ (deepseekPredictChunk model apiKey envVal env adText chunk adPlatform).decisions,
      x = 0 ∨ x = 1 := by
  obtain ⟨ctor, chat, resp⟩ := env
  unfold deepseekPredictChunk getClientOutcome
  cases hasApiKey apiKey envVal <;> cases ctor <;> cases chat <;> cases resp <;> intro x hx <;>
    simp only [] at hx <;>
    first
      | exact parseAndValidate_binary _ _ _ _ x hx
      | (obtain ⟨p, _, rfl⟩ := List.mem_map.mp hx; exact mockDecide_binary _ _)

/-- The DeepSeek asynchronous client returns only binary decisions. -/
theorem deepseekPredictChunkAsync_binary (model : String) (apiKey envVal : Option String)
    (env : VendorEnv) (adText : String) (chunk : List Identity) (adPlatform : String) :
    ∀ x ∈ (deepseekPredictChunkAsync model apiKey envVal env adText chunk adPlatform).decisions,
      x = 0 ∨ x = 1 := by
  obtain ⟨ctor, chat, resp⟩ := env
  unfold deepseekPredictChunkAsync getClientOutcome
  cases hasApiKey apiKey envVal <;> cases ctor <;> cases chat <;> cases resp <;> intro x hx <;>
    simp only [] at hx <;>
    first
      | exact parseAndValidate_binary _ _ _ _ x hx
      | (obtain ⟨p, _, rfl⟩ := List.mem_map.mp hx; exact mockDecide_binary _ _)

/-- Dispatch preserves the one-decision-per-profile invariant. -/
theorem providerPredictChunk_length (cfg : PredictorCfg) (mode : ExecMode)
    (envVal : Option String) (env : VendorEnv) (adText : String)
    (chunk : List Identity) (adPlatform : String) :
    (providerPredictChunk cfg mode envVal env adText chunk adPlatform).decisions.length
      = chunk.length := by
  unfold providerPredictChunk
  cases cfg.provider <;> cases mode <;>
    first
      | exact openaiPredictChunk_length _ _ _ _ _ _ _
      | exact openaiPredictChunkAsync_length _ _ _ _ _ _ _
      | exact deepseekPredictChunk_length _ _ _ _ _ _ _
      | exact deepseekPredictChunkAsync_length _ _ _ _ _ _ _

/-- Dispatch returns only binary decisions. -/
theorem providerPredictChunk_binary (cfg : PredictorCfg) (mode : ExecMode)
    (envVal : Option String) (env : VendorEnv) (adText : String)
    (chunk : List Identity) (adPlatform : String) :
    ∀ x ∈ (providerPredictChunk cfg mode envVal env adText chunk adPlatform).decisions,
      x = 0 ∨ x = 1 := by
  unfold providerPredictChunk
  cases cfg.provider <;> cases mode <;>
    first
      | exact openaiPredictChunk_binary _ _ _ _ _ _ _
      | exact openaiPredictChunkAsync_binary _ _ _ _ _ _ _
      | exact deepseekPredictChunk_binary _ _ _ _ _ _ _
      | exact deepseekPredictChunkAsync_binary _ _ _ _ _ _ _

/-- Concatenating the chunks of a positive chunk size reproduces the
original list: the batch-partition invariant of section 3. -/
theorem chunkList_flatten (size : Nat) (hs : 0 < size) :
    ∀ l : List α, (chunkList size l).flatten = l
  | [] => by
      rw [chunkList]
      rfl
  | x :: xs => by
      rw [chunkList]
      rw [dif_neg (Nat.pos_iff_ne_zero.mp hs)]
      rw [List.flatten_cons]
      rw [chunkList_flatten size hs (xs.drop (size - 1))]
      obtain ⟨k, rfl⟩ : ∃ k, size = k + 1 := ⟨size - 1, by omega⟩
      simp [List.take_cons, List.take_append_drop]
termination_by l => l.length
decreasing_by
  simp [List.length_drop]
  omega

/-- Mapping a per-index function over the index range and flattening has
the same length as the flattened list itself, when the function agrees in
length with the list entries. -/
theorem flatten_map_range_length {α β : Type} (bs : List (List α)) (f : Nat → List β)
    (h : ∀ i, i < bs.length → (f i).length = (bs.getD i []).length) :
    (((List.range bs.length).map f).flatten).length = bs.flatten.length := by
  induction bs generalizing f with
  | nil => simp
  | cons b bs ih =>
      rw [List.length_cons, List.range_succ_eq_map]
      simp only [List.map_cons, List.map_map, List.flatten_cons, List.length_append]
      have h0 := h 0 (by simp)
      simp only [List.getD_cons_zero] at h0
      rw [h0]
      have hrest := ih (fun i => f (i + 1))
        (fun i hi => by simpa using h (i + 1) (by simpa using hi))
      have hmm : List.map (f ∘ Nat.succ) (List.range bs.length)
          = List.map (fun i => f (i + 1)) (List.range bs.length) :=
        List.map_congr_left (fun a _ => by simp [Function.comp, Nat.succ_eq_add_one])
      rw [hmm, hrest]

/-- Looking a batch index up in the indexed completion list returns that
own result of that batch, whatever the completion order contains besides it. -/
theorem find_indexed (dec : Nat → List Int) (i : Nat) :
    ∀ order : List Nat, i ∈ order →
      (order.map (fun j => (j, dec j))).find? (fun p => p.1 == i)
        = some (i, dec i) := by
  intro order
  induction order with
  | nil => intro h; cases h
  | cons j js ih =>
      intro hmem
      by_cases hj : j = i
      · subst hj
        simp [List.find?_cons]
      · rw [List.map_cons, List.find?_cons_of_neg _ (by simpa using hj)]
        exact ih (by rcases List.mem_cons.mp hmem with rfl | h; exact absurd rfl hj; exact h)

/-- Reassembly of concurrently completed batches in index order equals the
canonical in-order result, for any completion order covering the indices. -/
theorem reassemble_eq_canonical (dec : Nat → List Int) (n : Nat) (order : List Nat)
    (hperm : order.Perm (List.range n)) :
    ((List.range n).map (fun i =>
        (((order.map (fun j => (j, dec j))).find? (fun p => p.1 == i)).map Prod.snd).getD []))
      = (List.range n).map dec := by
  apply List.map_congr_left
  intro i hi
  rw [find_indexed dec i order (hperm.mem_iff.mpr hi)]
  rfl

/-- Canonical in-order batch results: full length and binary entries. -/
theorem canonical_length_binary (cfg : PredictorCfg) (mode : ExecMode)
    (envVal : Option String) (envs : Nat → VendorEnv) (adText adPlatform : String)
    (bs : List (List Identity)) :
    (((List.range bs.length).map
        (batchDecisions cfg mode envVal envs adText adPlatform bs)).flatten).length
        = bs.flatten.length
      ∧ ∀ x ∈ ((List.range bs.length).map
          (batchDecisions cfg mode envVal envs adText adPlatform bs)).flatten,
          x = 0 ∨ x = 1 := by
  constructor
  · exact flatten_map_range_length bs _
      (fun i hi => providerPredictChunk_length cfg mode envVal (envs i) adText
        (bs.getD i []) adPlatform)
  · intro x hx
    rw [List.mem_flatten] at hx
    obtain ⟨l, hl, hxl⟩ := hx
    obtain ⟨i, hi, rfl⟩ := List.mem_map.mp hl
    exact providerPredictChunk_binary cfg mode envVal (envs i) adText
      (bs.getD i []) adPlatform x hxl

/-- C2: for every population of size N and every positive batch_size, in
both execution modes and regardless of provider outcomes, predict_clicks
returns exactly N binary decisions, and the concurrent result does not
depend on the completion order of the batches (results are reassembled
in original batch order). -/
theorem c2_predictClicks_length_binary_order (cfg : PredictorCfg) (mode : ExecMode)
    (envVal : Option String) (envs : Nat → VendorEnv) (order1 order2 : List Nat)
    (adText : String) (population : List Identity) (adPlatform : String)
    (hbs : 0 < cfg.batchSize)
    (h1 : order1.Perm (List.range (chunkList cfg.batchSize population).length))
    (h2 : order2.Perm (List.range (chunkList cfg.batchSize population).length)) :
    (predictClicks cfg mode envVal envs order1 adText population adPlatform).length
        = population.length
      ∧ (∀ x ∈ predictClicks cfg mode envVal envs order1 adText population adPlatform,
          x = 0 ∨ x = 1)
      ∧ predictClicks cfg mode envVal envs order1 adText population adPlatform
          = predictClicks cfg mode envVal envs order2 adText population adPlatform := by
  unfold predictClicks
  by_cases hm : cfg.useMock
  · simp only [hm, if_true]
    refine ⟨?_, ?_, by first | rfl | trivial⟩
    · rw [← List.map_flatten, List.length_map, chunkList_flatten _ hbs]
    · intro x hx
      rw [← List.map_flatten] at hx
      obtain ⟨p, _, rfl⟩ := List.mem_map.mp hx
      exact mockDecide_binary _ _
  · simp only [Bool.not_eq_true] at hm
    simp only [hm, Bool.false_eq_true, if_false]
    cases mode with
    | sequential =>
        refine ⟨?_, (canonical_length_binary _ _ _ _ _ _ _).2, rfl⟩
        rw [(canonical_length_binary _ _ _ _ _ _ _).1, chunkList_flatten _ hbs]
    | concurrent =>
        rw [reassemble_eq_canonical _ _ order1 h1, reassemble_eq_canonical _ _ order2 h2]
        refine ⟨?_, (canonical_length_binary _ _ _ _ _ _ _).2, rfl⟩
        rw [(canonical_length_binary _ _ _ _ _ _ _).1, chunkList_flatten _ hbs]

theorem c2_witness :
    0 < 2
    ∧ [1, 0].Perm (List.range (chunkList 2 [idA, idB, idA]).length)
    ∧ (predictClicks ⟨.openai, "gpt-4o-mini", 2, false, none⟩ .concurrent none
        (fun _ => ⟨.ok, none, none⟩) [1, 0] "ad" [idA, idB, idA] "facebook").length
        = 3 := by
  have hlen : (chunkList 2 [idA, idB, idA]).length = 2 := by simp [chunkList]
  have hp : ([1, 0] : List Nat).Perm (List.range (chunkList 2 [idA, idB, idA]).length) := by
    rw [hlen]; decide
  exact ⟨by decide, hp,
    (c2_predictClicks_length_binary_order ⟨.openai, "gpt-4o-mini", 2, false, none⟩
      .concurrent none (fun _ => ⟨.ok, none, none⟩) [1, 0] [1, 0] "ad"
      [idA, idB, idA] "facebook" (by decide) hp hp).1⟩

/-- C3: when the vendor API attempt for a batch fails (every attempt, for
the OpenAI synchronous variant with its secondary), each predict_chunk
variant returns the Mock Oracle decisions for the entire batch with a
fallback reason tagged API call failed; and on every external outcome each
variant returns a full-length decision vector, so no error propagates and
no batch failure can abort a run. -/
theorem c3_api_failure_fallback (model : String) (apiKey envVal : Option String)
    (env : VendorEnv) (adText : String) (chunk : List Identity) (adPlatform : String)
    (hkey : hasApiKey apiKey envVal = true) (hctor : env.ctor = .ok)
    (hchat : env.chat = none) :
    (env.responsesApi = none →
        (openaiPredictChunk model apiKey envVal env adText chunk adPlatform).decisions
            = chunk.map (mockDecide adText)
          ∧ (openaiPredictChunk model apiKey envVal env adText chunk adPlatform).reason
            = some "OpenAI API call failed")
      ∧ ((openaiPredictChunkAsync model apiKey envVal env adText chunk adPlatform).decisions
            = chunk.map (mockDecide adText)
          ∧ (openaiPredictChunkAsync model apiKey envVal env adText chunk adPlatform).reason
            = some "AsyncOpenAI API call failed")
      ∧ ((deepseekPredictChunk model apiKey envVal env adText chunk adPlatform).decisions
            = chunk.map (mockDecide adText)
          ∧ (deepseekPredictChunk model apiKey envVal env adText chunk adPlatform).reason
            = some "DeepSeek API call failed")
      ∧ ((deepseekPredictChunkAsync model apiKey envVal env adText chunk adPlatform).decisions
            = chunk.map (mockDecide adText)
          ∧ (deepseekPredictChunkAsync model apiKey envVal env adText chunk adPlatform).reason
            = some "AsyncDeepSeek API call failed")
      ∧ (hasTag "OpenAI API call failed" "API call failed" = true
          ∧ hasTag "AsyncOpenAI API call failed" "API call failed" = true
          ∧ hasTag "DeepSeek API call failed" "API call failed" = true
          ∧ hasTag "AsyncDeepSeek API call failed" "API call failed" = true)
      ∧ (∀ env2 : VendorEnv,
          (openaiPredictChunk model apiKey envVal env2 adText chunk adPlatform).decisions.length
              = chunk.length
            ∧ (openaiPredictChunkAsync model apiKey envVal env2 adText chunk adPlatform).decisions.length
              = chunk.length
            ∧ (deepseekPredictChunk model apiKey envVal env2 adText chunk adPlatform).decisions.length
              = chunk.length
            ∧ (deepseekPredictChunkAsync model apiKey envVal env2 adText chunk adPlatform).decisions.length
              = chunk.length) := by
  obtain ⟨ctor, chat, resp⟩ := env
  simp only at hctor hchat
  subst hctor hchat
  refine ⟨?_, ?_, ?_, ?_, ⟨by decide, by decide, by decide, by decide⟩, ?_⟩
  · intro hresp
    simp only at hresp
    subst hresp
    unfold openaiPredictChunk getClientOutcome
    exact ⟨rfl, rfl⟩
  · unfold openaiPredictChunkAsync getClientOutcome
    exact ⟨rfl, rfl⟩
  · unfold deepseekPredictChunk getClientOutcome
    rw [hkey]
    simp
  · unfold deepseekPredictChunkAsync getClientOutcome
    rw [hkey]
    simp
  · intro env2
    exact ⟨openaiPredictChunk_length _ _ _ _ _ _ _,
      openaiPredictChunkAsync_length _ _ _ _ _ _ _,
      deepseekPredictChunk_length _ _ _ _ _ _ _,
      deepseekPredictChunkAsync_length _ _ _ _ _ _ _⟩

/-- Reason produced by the parser stage: either none or the response
malformed tag. -/
theorem parseAndValidate_reason (content : String) (chunk : List Identity)
    (adText tag : String) :
    (parseAndValidate content chunk adText tag).2 = none
      ∨ (parseAndValidate content chunk adText tag).2
        = some (tag ++ " response malformed") := by
  unfold parseAndValidate
  cases extractIntArray content with
  | none => right; rfl
  | some xs => left; rfl

theorem c3_witness :
    hasApiKey (some "k") none = true
    ∧ (⟨CtorOutcome.ok, none, none⟩ : VendorEnv).ctor = .ok
    ∧ (⟨CtorOutcome.ok, none, none⟩ : VendorEnv).chat = none
    ∧ (deepseekPredictChunk "deepseek-chat" (some "k") none ⟨.ok, none, none⟩
        "ad" [idA] "facebook").reason = some "DeepSeek API call failed"
    ∧ (deepseekPredictChunk "deepseek-chat" (some "k") none ⟨.ok, none, none⟩
        "ad" [idA] "facebook").decisions = [idA].map (mockDecide "ad") := by
  have h := c3_api_failure_fallback "deepseek-chat" (some "k") none ⟨.ok, none, none⟩
    "ad" [idA] "facebook" (by decide) rfl rfl
  exact ⟨by decide, rfl, rfl, h.2.2.1.2, h.2.2.1.1⟩

/-- C4: in the OpenAI synchronous predict_chunk, when the chat-completions
call fails the client issues the secondary responses-endpoint call with
the same model and the same rendered prompt; if that call returns content
the batch is served from the parsed content (no API-call-failed fallback),
and the Mock Oracle fallback tagged OpenAI API call failed occurs exactly
when the secondary attempt also fails; the asynchronous OpenAI variant and
the DeepSeek variants never issue a responses-endpoint call. -/
theorem c4_openai_secondary_responses (model : String) (apiKey envVal : Option String)
    (env : VendorEnv) (adText : String) (chunk : List Identity) (adPlatform : String)
    (hctor : env.ctor = .ok) (hchat : env.chat = none) :
    (∀ content, env.responsesApi = some content →
        openaiPredictChunk model apiKey envVal env adText chunk adPlatform
          = ⟨(parseAndValidate content chunk adText "OpenAI").1,
             (parseAndValidate content chunk adText "OpenAI").2,
             [.clientConstruct,
              .apiCall ⟨.chatCompletions, model,
                .chatMsgs (openaiCreateMessages (buildPrompt adText chunk adPlatform)),
                some 0, none⟩,
              .apiCall ⟨.responsesApi, model,
                .respInput (buildPrompt adText chunk adPlatform), none, none⟩]⟩)
      ∧ (env.responsesApi = none →
          (openaiPredictChunk model apiKey envVal env adText chunk adPlatform).decisions
              = chunk.map (mockDecide adText)
            ∧ (openaiPredictChunk model apiKey envVal env adText chunk adPlatform).reason
              = some "OpenAI API call failed")
      ∧ ((openaiPredictChunk model apiKey envVal env adText chunk adPlatform).reason
            = some "OpenAI API call failed" → env.responsesApi = none)
      ∧ (∀ env2 : VendorEnv, ∀ c : ApiCall,
          Event.apiCall c
              ∈ (openaiPredictChunkAsync model apiKey envVal env2 adText chunk adPlatform).events
            → c.endpoint = .chatCompletions)
      ∧ (∀ env2 : VendorEnv, ∀ c : ApiCall,
          Event.apiCall c
              ∈ (deepseekPredictChunk model apiKey envVal env2 adText chunk adPlatform).events
            → c.endpoint = .chatCompletions)
      ∧ (∀ env2 : VendorEnv, ∀ c : ApiCall,
          Event.apiCall c
              ∈ (deepseekPredictChunkAsync model apiKey envVal env2 adText chunk adPlatform).events
            → c.endpoint = .chatCompletions) := by
  obtain ⟨ctor, chat, resp⟩ := env
  simp only at hctor hchat
  subst hctor hchat
  refine ⟨?_, ?_, ?_, ?_, ?_, ?_⟩
  · intro content hresp
    simp only at hresp
    subst hresp
    unfold openaiPredictChunk getClientOutcome
    rfl
  · intro hresp
    simp only at hresp
    subst hresp
    unfold openaiPredictChunk getClientOutcome
    exact ⟨rfl, rfl⟩
  · intro hreason
    cases resp with
    | none => rfl
    | some content =>
        exfalso
        unfold openaiPredictChunk getClientOutcome at hreason
        simp only [] at hreason
        rcases parseAndValidate_reason content chunk adText "OpenAI" with h | h <;>
          rw [h] at hreason <;> simp at hreason
  · intro env2 c hc
    obtain ⟨ctor2, chat2, resp2⟩ := env2
    unfold openaiPredictChunkAsync getClientOutcome at hc
    cases ctor2 <;> cases chat2 <;> simp at hc <;> simp [hc]
  · intro env2 c hc
    obtain ⟨ctor2, chat2, resp2⟩ := env2
    unfold deepseekPredictChunk getClientOutcome at hc
    by_cases hk : hasApiKey apiKey envVal = false
    · simp [hk] at hc
    · cases ctor2 <;> cases chat2 <;> simp [hk] at hc <;> simp [hc]
  · intro env2 c hc
    obtain ⟨ctor2, chat2, resp2⟩ := env2
    unfold deepseekPredictChunkAsync getClientOutcome at hc
    by_cases hk : hasApiKey apiKey envVal = false
    · simp [hk] at hc
    · cases ctor2 <;> cases chat2 <;> simp [hk] at hc <;> simp [hc]

theorem c4_witness :
    (⟨CtorOutcome.ok, none, some "[1, 0]"⟩ : VendorEnv).ctor = .ok
    ∧ (⟨CtorOutcome.ok, none, some "[1, 0]"⟩ : VendorEnv).chat = none
    ∧ openaiPredictChunk "gpt-4o-mini" none none ⟨.ok, none, some "[1, 0]"⟩
        "ad" [idA, idB] "facebook"
        = ⟨(parseAndValidate "[1, 0]" [idA, idB] "ad" "OpenAI").1,
           (parseAndValidate "[1, 0]" [idA, idB] "ad" "OpenAI").2,
           [.clientConstruct,
            .apiCall ⟨.chatCompletions, "gpt-4o-mini",
              .chatMsgs (openaiCreateMessages (buildPrompt "ad" [idA, idB] "facebook")),
              some 0, none⟩,
            .apiCall ⟨.responsesApi, "gpt-4o-mini",
              .respInput (buildPrompt "ad" [idA, idB] "facebook"), none, none⟩]⟩ :=
  ⟨rfl, rfl,
    (c4_openai_secondary_responses "gpt-4o-mini" none none ⟨.ok, none, some "[1, 0]"⟩
      "ad" [idA, idB] "facebook" rfl rfl).1 "[1, 0]" rfl⟩

/-- C5 as stated is false: on the OpenAI synchronous secondary path the
responses-endpoint call is issued with no temperature argument at all, so
not every provider API call carries temperature 0. -/
theorem c5_counterexample :
    ¬ (∀ c : ApiCall,
        Event.apiCall c
            ∈ (openaiPredictChunk "gpt-4o-mini" (some "k") none ⟨.ok, none, some "[1]"⟩
                "ad" [idA] "facebook").events
          → c.temperature = some 0) := by
  intro h
  have hmem : Event.apiCall
      ⟨.responsesApi, "gpt-4o-mini", .respInput (buildPrompt "ad" [idA] "facebook"),
        none, none⟩
      ∈ (openaiPredictChunk "gpt-4o-mini" (some "k") none ⟨.ok, none, some "[1]"⟩
          "ad" [idA] "facebook").events := by
    unfold openaiPredictChunk getClientOutcome
    simp
  have := h _ hmem
  simp at this

/-- C5 amended: every chat-completions call of every variant is issued
with temperature 0 and never with streaming requested (DeepSeek passes
stream False explicitly, OpenAI omits the argument), while the OpenAI
secondary responses call is issued with neither a temperature nor a
stream argument. -/
theorem c5_call_parameters (model : String) (apiKey envVal : Option String)
    (env : VendorEnv) (adText : String) (chunk : List Identity) (adPlatform : String) :
    ∀ c : ApiCall,
      (Event.apiCall c ∈ (openaiPredictChunk model apiKey envVal env adText chunk adPlatform).events
        ∨ Event.apiCall c ∈ (openaiPredictChunkAsync model apiKey envVal env adText chunk adPlatform).events
        ∨ Event.apiCall c ∈ (deepseekPredictChunk model apiKey envVal env adText chunk adPlatform).events
        ∨ Event.apiCall c ∈ (deepseekPredictChunkAsync model apiKey envVal env adText chunk adPlatform).events)
      → (c.endpoint = .chatCompletions → c.temperature = some 0 ∧ c.stream ≠ some true)
        ∧ (c.endpoint = .responsesApi → c.temperature = none ∧ c.stream = none) := by
  obtain ⟨ctor, chat, resp⟩ := env
  intro c hc
  rcases hc with h | h | h | h
  · unfold openaiPredictChunk getClientOutcome at h
    cases ctor <;> cases chat <;> cases resp <;> simp at h <;>
      first
        | (rcases h with rfl | rfl <;> constructor <;> intro he <;> simp_all)
        | (subst h; constructor <;> intro he <;> simp_all)
  · unfold openaiPredictChunkAsync getClientOutcome at h
    cases ctor <;> cases chat <;> simp at h <;>
      (subst h; constructor <;> intro he <;> simp_all)
  · unfold deepseekPredictChunk getClientOutcome at h
    by_cases hk : hasApiKey apiKey envVal = false
    · simp [hk] at h
    · cases ctor <;> cases chat <;> simp [hk] at h <;>
        (subst h; constructor <;> intro he <;> simp_all)
  · unfold deepseekPredictChunkAsync getClientOutcome at h
    by_cases hk : hasApiKey apiKey envVal = false
    · simp [hk] at h
    · cases ctor <;> cases chat <;> simp [hk] at h <;>
        (subst h; constructor <;> intro he <;> simp_all)

theorem c5_witness :
    (Event.apiCall
        ⟨.chatCompletions, "deepseek-chat",
          .chatMsgs (deepseekCreateMessages (buildPrompt "ad" [idA] "facebook")),
          some 0, some false⟩
      ∈ (deepseekPredictChunk "deepseek-chat" (some "k") none ⟨.ok, none, none⟩
          "ad" [idA] "facebook").events
      ∨ Event.apiCall
        ⟨.chatCompletions, "deepseek-chat",
          .chatMsgs (deepseekCreateMessages (buildPrompt "ad" [idA] "facebook")),
          some 0, some false⟩
      ∈ (openaiPredictChunk "deepseek-chat" (some "k") none ⟨.ok, none, none⟩
          "ad" [idA] "facebook").events)
    ∧ (⟨.chatCompletions, "deepseek-chat",
          .chatMsgs (deepseekCreateMessages (buildPrompt "ad" [idA] "facebook")),
          some 0, some false⟩ : ApiCall).temperature = some 0 := by
  have hmem : Event.apiCall
      ⟨.chatCompletions, "deepseek-chat",
        .chatMsgs (deepseekCreateMessages (buildPrompt "ad" [idA] "facebook")),
        some 0, some false⟩
      ∈ (deepseekPredictChunk "deepseek-chat" (some "k") none ⟨.ok, none, none⟩
          "ad" [idA] "facebook").events := by
    unfold deepseekPredictChunk getClientOutcome
    have hk : hasApiKey (some "k") none = true := by decide
    simp [hk]
  refine ⟨Or.inl hmem, ?_⟩
  exact ((c5_call_parameters "deepseek-chat" (some "k") none ⟨.ok, none, none⟩
    "ad" [idA] "facebook" _ (Or.inr (Or.inr (Or.inl hmem)))).1 rfl).1

/-- C6 as stated is false: with a valid platform and provider but a
missing identity bank file, predict_ctr still rejects the request with an
HTTP 400 before any identity sampling. -/
theorem c6_counterexample :
    ("facebook" ∈ AVAILABLE_PLATFORMS ∧ "openai" ∈ AVAILABLE_PROVIDERS)
    ∧ predictCtrPrelude "facebook" "openai" false
        = .rejected ⟨400, "Identity bank file not found"⟩ := by
  exact ⟨⟨by decide, by decide⟩, rfl⟩

/-- C6 amended: predict_ctr rejects a request with an HTTP 400 before any
identity sampling begins if and only if the platform is invalid, the
provider is invalid, or the identity bank file does not exist; and
validate_request raises nothing exactly for valid platform and provider. -/
theorem c6_validate_reject (adPlatform provider : String) (bankFileExists : Bool) :
    ((∃ e, predictCtrPrelude adPlatform provider bankFileExists = .rejected e
        ∧ e.statusCode = 400)
      ↔ (adPlatform ∉ AVAILABLE_PLATFORMS ∨ provider ∉ AVAILABLE_PROVIDERS
          ∨ bankFileExists = false))
    ∧ (validateRequest adPlatform provider = none
      ↔ (adPlatform ∈ AVAILABLE_PLATFORMS ∧ provider ∈ AVAILABLE_PROVIDERS)) := by
  by_cases hp : adPlatform ∈ AVAILABLE_PLATFORMS <;>
    by_cases hq : provider ∈ AVAILABLE_PROVIDERS <;>
      cases bankFileExists <;>
        simp [predictCtrPrelude, validateRequest, hp, hq]

/-- C1 is a code bug in the OpenAI client: at the failing input (no
api_key override, OPENAI_API_KEY unset) the synchronous and asynchronous
OpenAI predict_chunk attempt vendor-client construction, an event the
claim forbids, and fall back tagged OpenAI import failed rather than API
key missing, while the DeepSeek client at the same input behaves exactly
as the claim (and the template client of the repository) prescribes: mock
decisions tagged DeepSeek API key missing with an empty event trace. -/
theorem c1_missing_key_divergence :
    hasApiKey none none = false
    ∧ (openaiPredictChunk "gpt-4o-mini" none none ⟨.fails, none, none⟩
        "ad" [idA] "facebook").events = [.clientConstruct]
    ∧ (openaiPredictChunk "gpt-4o-mini" none none ⟨.fails, none, none⟩
        "ad" [idA] "facebook").reason = some "OpenAI import failed"
    ∧ (openaiPredictChunkAsync "gpt-4o-mini" none none ⟨.fails, none, none⟩
        "ad" [idA] "facebook").events = [.clientConstruct]
    ∧ (openaiPredictChunkAsync "gpt-4o-mini" none none ⟨.fails, none, none⟩
        "ad" [idA] "facebook").reason = some "AsyncOpenAI import failed"
    ∧ hasTag "OpenAI import failed" "API key missing" = false
    ∧ hasTag "AsyncOpenAI import failed" "API key missing" = false
    ∧ deepseekPredictChunk "deepseek-chat" none none ⟨.fails, none, none⟩
        "ad" [idA] "facebook"
        = ⟨[idA].map (mockDecide "ad"), some "DeepSeek API key missing", []⟩
    ∧ deepseekPredictChunkAsync "deepseek-chat" none none ⟨.fails, none, none⟩
        "ad" [idA] "facebook"
        = ⟨[idA].map (mockDecide "ad"), some "DeepSeek API key missing", []⟩
    ∧ hasTag "DeepSeek API key missing" "API key missing" = true := by
  refine ⟨by decide, rfl, rfl, rfl, rfl, by decide, by decide, ?_, ?_, by decide⟩
  · unfold deepseekPredictChunk
    simp [hasApiKey, resolveKey]
  · unfold deepseekPredictChunkAsync
    simp [hasApiKey, resolveKey]

/-- C8: compute_ctr returns the truthy count divided by the length, and
zero on the empty list. -/
theorem c8_computeCtr_spec (l : List Int) :
    computeCtr [] = 0
    ∧ (l ≠ [] → computeCtr l
        = ((l.countP (fun x => x != 0) : ℚ)) / (l.length : ℚ)) := by
  constructor
  · rfl
  · intro h
    rw [computeCtr, if_neg h, List.countP_eq_length_filter]

theorem c8_witness :
    ([1, 0, 1] : List Int) ≠ []
    ∧ computeCtr [1, 0, 1]
      = ((([1, 0, 1] : List Int).countP (fun x => x != 0) : ℚ))
          / ((([1, 0, 1] : List Int).length : ℚ)) :=
  ⟨by decide, (c8_computeCtr_spec [1, 0, 1]).2 (by decide)⟩

/-- C9: both providers build exactly two messages: the fixed system
instruction, then the rendered prompt as the user message. -/
theorem c9_createMessages (prompt : String) :
    openaiCreateMessages prompt
        = [⟨"system", "You are a precise decision engine that outputs strict JSON."⟩,
           ⟨"user", prompt⟩]
      ∧ deepseekCreateMessages prompt
        = [⟨"system", "You are a precise decision engine that outputs strict JSON."⟩,
           ⟨"user", prompt⟩]
      ∧ (openaiCreateMessages prompt).length = 2
      ∧ (deepseekCreateMessages prompt).length = 2 :=
  ⟨rfl, rfl, rfl, rfl⟩

/-- A successful inner loop of _weighted_choice returns an index below the
start index plus the number of remaining weights. -/
theorem weightedChoiceLoop_lt (r : ℚ) :
    ∀ (ws : List ℚ) (i0 : Nat) (acc : ℚ) (j : Nat),
      weightedChoiceLoop r ws i0 acc = some j → j < i0 + ws.length := by
  intro ws
  induction ws with
  | nil =>
      intro i0 acc j h
      simp [weightedChoiceLoop] at h
  | cons w ws ih =>
      intro i0 acc j h
      rw [weightedChoiceLoop] at h
      by_cases hr : r ≤ acc + w
      · simp only [hr, if_true] at h
        cases h
        simp
      · simp only [hr, if_false] at h
        have := ih (i0 + 1) (acc + w) j h
        simp only [List.length_cons]
        omega

/-- C10: _weighted_choice raises ValueError exactly when the weight sum is
not positive; otherwise it returns an index below the length, and when the
accumulation loop finishes without selecting it falls through to the final
index. -/
theorem c10_weightedChoice_spec (weights : List ℚ) (u : ℚ) :
    ((∃ e, weightedChoice weights u = .error e) ↔ weights.sum ≤ 0)
    ∧ (∀ i, weightedChoice weights u = .ok i → i < weights.length)
    ∧ (¬ weights.sum ≤ 0 →
        weightedChoiceLoop (u * weights.sum) weights 0 0 = none →
        weightedChoice weights u = .ok (weights.length - 1)) := by
  unfold weightedChoice
  by_cases hs : weights.sum ≤ 0
  · simp [hs]
  · simp only [hs, if_false]
    cases hloop : weightedChoiceLoop (u * weights.sum) weights 0 0 with
    | some i =>
        refine ⟨by simp [hs], ?_, fun _ hnone => Option.noConfusion hnone⟩
        intro j hj
        cases hj
        have := weightedChoiceLoop_lt (u * weights.sum) weights 0 0 i hloop
        omega
    | none =>
        refine ⟨by simp [hs], ?_, fun _ _ => rfl⟩
        intro j hj
        cases hj
        have hne : weights ≠ [] := by
          intro hemp
          subst hemp
          simp at hs
        have : 0 < weights.length := List.length_pos.mpr hne
        omega

theorem c10_witness :
    weightedChoice [1, 2] (1 / 4) = .ok 0 ∧ (0 : Nat) < ([1, 2] : List ℚ).length := by
  have h : weightedChoice [1, 2] (1 / 4) = .ok 0 := by
    norm_num [weightedChoice, weightedChoiceLoop]
  exact ⟨h, (c10_weightedChoice_spec [1, 2] (1 / 4)).2.1 0 h⟩

/-- A successful sampling loop returns exactly as many records as asked. -/
theorem sampleIdentitiesLoop_length (bank : Bank) :
    ∀ (n : Nat) (st : RngState) (ids : List Identity),
      sampleIdentitiesLoop bank n st = .ok ids → ids.length = n := by
  intro n
  induction n with
  | zero =>
      intro st ids h
      rw [sampleIdentitiesLoop] at h
      cases h
      rfl
  | succ k ih =>
      intro st ids h
      rw [sampleIdentitiesLoop] at h
      cases hident : sampleIdentity bank st with
      | error e =>
          rw [hident] at h
          simp [Bind.bind, Except.bind] at h
      | ok p =>
          obtain ⟨ident, st2⟩ := p
          rw [hident] at h
          simp only [Bind.bind, Except.bind] at h
          cases hrest : sampleIdentitiesLoop bank k st2 with
          | error e =>
              rw [hrest] at h
              simp at h
          | ok rest =>
              rw [hrest] at h
              simp at h
              subst h
              simp [ih st2 rest hrest]

/-- C7 amended: with an integer seed, sample_identities is pure and
deterministic: the ambient OS entropy never enters the result, so any two
runs with identical n, bank and seed agree, and a successful run returns
exactly n records in order. -/
theorem c7_seeded_deterministic (n : Nat) (bank : Bank) (s : Int) (amb1 amb2 : Nat) :
    sampleIdentities n bank (some s) amb1 = sampleIdentities n bank (some s) amb2
      ∧ (∀ ids, sampleIdentities n bank (some s) amb1 = .ok ids → ids.length = n) := by
  refine ⟨rfl, ?_⟩
  intro ids h
  exact sampleIdentitiesLoop_length bank n _ ids h

theorem c7_witness :
    sampleIdentities 2 ⟨⟨["m", "f"], none⟩, ⟨40, 0, 0, 120⟩, ⟨[⟨"X", ""⟩]⟩, ⟨["w"], none⟩,
        ⟨[⟨0, 0, 1⟩]⟩, ⟨[⟨0, 0, 1⟩]⟩, ⟨0⟩, ⟨0, []⟩⟩ (some 42) 0
      = sampleIdentities 2 ⟨⟨["m", "f"], none⟩, ⟨40, 0, 0, 120⟩, ⟨[⟨"X", ""⟩]⟩, ⟨["w"], none⟩,
        ⟨[⟨0, 0, 1⟩]⟩, ⟨[⟨0, 0, 1⟩]⟩, ⟨0⟩, ⟨0, []⟩⟩ (some 42) 7 :=
  (c7_seeded_deterministic 2 ⟨⟨["m", "f"], none⟩, ⟨40, 0, 0, 120⟩, ⟨[⟨"X", ""⟩]⟩,
    ⟨["w"], none⟩, ⟨[⟨0, 0, 1⟩]⟩, ⟨[⟨0, 0, 1⟩]⟩, ⟨0⟩, ⟨0, []⟩⟩ 42 0 7).1

/-- C7 as stated is false: sample_identities with seed None consults
ambient OS entropy, so two calls with identical n, bank and seed (None)
can return different sequences. -/
theorem c7_counterexample :
    sampleIdentities 1 ⟨⟨["m", "f"], none⟩, ⟨40, 0, 0, 120⟩, ⟨[⟨"X", ""⟩]⟩, ⟨["w"], none⟩,
        ⟨[⟨0, 0, 1⟩]⟩, ⟨[⟨0, 0, 1⟩]⟩, ⟨0⟩, ⟨0, []⟩⟩ none 0
      ≠ sampleIdentities 1 ⟨⟨["m", "f"], none⟩, ⟨40, 0, 0, 120⟩, ⟨[⟨"X", ""⟩]⟩, ⟨["w"], none⟩,
        ⟨[⟨0, 0, 1⟩]⟩, ⟨[⟨0, 0, 1⟩]⟩, ⟨0⟩, ⟨0, []⟩⟩ none 5 := by
  have h0 : sampleIdentities 1 ⟨⟨["m", "f"], none⟩, ⟨40, 0, 0, 120⟩, ⟨[⟨"X", ""⟩]⟩,
      ⟨["w"], none⟩, ⟨[⟨0, 0, 1⟩]⟩, ⟨[⟨0, 0, 1⟩]⟩, ⟨0⟩, ⟨0, []⟩⟩ none 0
      = .ok [⟨"m", 40, "X", "w", 0, 0, false, false, none⟩] := by
    norm_num [sampleIdentities, sampleIdentitiesLoop, sampleIdentity, sampleCategorical,
      sampleIntNormal, sampleIntNormalLoop, sampleRegion, sampleFloatBucketed, sampleBool,
      sampleHealth, pyChoice, nextUnit, nextGauss, rngOfSeed, weightedChoice,
      weightedChoiceLoop, pythonRound, pythonRound2, Except.bind, Bind.bind, Pure.pure,
      Except.pure, Except.instMonad]
  have h5 : sampleIdentities 1 ⟨⟨["m", "f"], none⟩, ⟨40, 0, 0, 120⟩, ⟨[⟨"X", ""⟩]⟩,
      ⟨["w"], none⟩, ⟨[⟨0, 0, 1⟩]⟩, ⟨[⟨0, 0, 1⟩]⟩, ⟨0⟩, ⟨0, []⟩⟩ none 5
      = .ok [⟨"f", 40, "X", "w", 0, 0, false, false, none⟩] := by
    norm_num [sampleIdentities, sampleIdentitiesLoop, sampleIdentity, sampleCategorical,
      sampleIntNormal, sampleIntNormalLoop, sampleRegion, sampleFloatBucketed, sampleBool,
      sampleHealth, pyChoice, nextUnit, nextGauss, rngOfSeed, weightedChoice,
      weightedChoiceLoop, pythonRound, pythonRound2, Except.bind, Bind.bind, Pure.pure,
      Except.pure, Except.instMonad]
  rw [h0, h5]
  simp
